import Mathlib

/-!
# Shallow embedding of the voice-chatbot pipeline

This file embeds the two source files of the repository:

* `chatbot.py` — `speech2text` (Whisper transcription), `prompt2answer`
  (local `ollama` subprocess), and the CLI `main`;
* `gradio_app.py` — the two UI callbacks `transcribe_audio` and
  `generate_ai_response`.

External collaborators (the Whisper engine, the subprocess machinery, the
filesystem) are modelled as explicit function parameters, so that every
behaviour of the Python glue code around them becomes a total Lean function.
-/

namespace Chatbot

/-- Characters stripped by Python's `str.strip()` with no argument, i.e. the
characters `c` with `c.isspace()` true in CPython: the ASCII whitespace
characters, the C1 separators, and the Unicode space separators. -/
def isPySpace (c : Char) : Bool :=
  c.val ∈ ([0x09, 0x0a, 0x0b, 0x0c, 0x0d, 0x1c, 0x1d, 0x1e, 0x1f, 0x20,
            0x85, 0xa0, 0x1680, 0x2000, 0x2001, 0x2002, 0x2003, 0x2004,
            0x2005, 0x2006, 0x2007, 0x2008, 0x2009, 0x200a, 0x2028, 0x2029,
            0x202f, 0x205f, 0x3000] : List UInt32)

/-- Drop the leading run of Python whitespace (left half of `str.strip()`). -/
def pyStripLeft (l : List Char) : List Char :=
  l.dropWhile isPySpace

/-- Drop the trailing run of Python whitespace (right half of `str.strip()`). -/
def pyStripRight (l : List Char) : List Char :=
  (l.reverse.dropWhile isPySpace).reverse

/-- Python's `str.strip()` on the character list of a string. -/
def pyStripList (l : List Char) : List Char :=
  pyStripRight (pyStripLeft l)

/-- Python's `str.strip()`: remove leading and trailing whitespace. -/
def pyStrip (s : String) : String :=
  String.mk (pyStripList s.data)

/-- `true` when the string starts with a (possibly empty) run equal to `pre`:
Python's `s.startswith(pre)` (`gradio_app.py` line 107). -/
def strStartsWith (s pre : String) : Bool :=
  List.isPrefixOf pre.data s.data

/-- The Whisper engine of `chatbot.py` lines 12-14
(`whisper.load_model("base")`, `model.transcribe(audio_path)`, and the
`result["text"]` access), modelled as an external collaborator mapping the
audio path to either the text field of the transcription result or the
message of a raised exception. -/
def WhisperEngine : Type := String → Except String String

/-- `chatbot.py` lines 7-17, `speech2text(audio_path)`: run the engine inside
`try`, return `result["text"]` verbatim on success, and return `None` when
the engine raises (`except Exception`). The function takes exactly one data
parameter, `audio_path`; there is no mode argument. -/
def speech2text (engine : WhisperEngine) (audio_path : String) : Option String :=
  match engine audio_path with
  | Except.ok text => some text
  | Except.error _ => none

/-- One call to `subprocess.run` as `prompt2answer` issues it
(`chatbot.py` lines 27-33): an argument vector, whether a shell is used to
interpret it (`subprocess.run` with a list and no `shell=True` never invokes
a shell), and the `timeout=` keyword in seconds. -/
structure RunCall where
  argv : List String
  useShell : Bool
  timeoutSeconds : Option Nat
deriving DecidableEq

/-- The outcome of a `subprocess.run` call: normal completion with a return
code, captured stdout and stderr (`chatbot.py` lines 29-31); expiry of the
timeout (`subprocess.TimeoutExpired`, line 40); or any other exception raised
by the subprocess machinery (line 43). -/
inductive ProcOutcome where
  | completed (returncode : Int) (stdout stderr : String)
  | timedOut
  | raised (message : String)
deriving DecidableEq

/-- The process launcher (`subprocess.run`), an external collaborator. -/
def Launcher : Type := RunCall → ProcOutcome

/-- The exact call `prompt2answer` builds at `chatbot.py` lines 27-33:
`subprocess.run(['ollama', 'run', 'mistral:latest', prompt], ..., timeout=300)`.
The list is passed as-is (no `shell=True`), the raw `prompt` is the fourth
element (line 25 computes `shlex.quote(prompt)` into `sanitized_prompt`, but
the list at line 28 uses `prompt` itself), and the timeout is 300 seconds. -/
def prompt2answerCall (prompt : String) : RunCall :=
  { argv := ["ollama", "run", "mistral:latest", prompt]
    useShell := false
    timeoutSeconds := some 300 }

/-- What one call of `prompt2answer` produces: the returned value
(`None` modelled as `none`) together with the lines it printed and the
subprocess call it issued. -/
structure AnswerOutcome where
  result : Option String
  log : List String
  callMade : RunCall
deriving DecidableEq

/-- How `prompt2answer` maps the outcome of its one `subprocess.run` call to
its returned value and printed lines (`chatbot.py` lines 35-45): `None` with
`"Error running Ollama: " + stderr` printed on a non-zero return code,
`result.stdout.strip()` on return code zero, `None` with
`"Ollama command timed out"` printed on `TimeoutExpired`, and `None` with
`"Error running Ollama: " + e` printed on any other exception. The first
log line is the `"Running Ollama with prompt: ..."` print at line 26, which
happens before the subprocess call. -/
def answerOfOutcome (prompt : String) (o : ProcOutcome) : AnswerOutcome :=
  match o with
  | ProcOutcome.completed rc out err =>
      if rc ≠ 0 then
        { result := none
          log := ["Running Ollama with prompt: " ++ prompt,
                  "Error running Ollama: " ++ err]
          callMade := prompt2answerCall prompt }
      else
        { result := some (pyStrip out)
          log := ["Running Ollama with prompt: " ++ prompt]
          callMade := prompt2answerCall prompt }
  | ProcOutcome.timedOut =>
      { result := none
        log := ["Running Ollama with prompt: " ++ prompt,
                "Ollama command timed out"]
        callMade := prompt2answerCall prompt }
  | ProcOutcome.raised msg =>
      { result := none
        log := ["Running Ollama with prompt: " ++ prompt,
                "Error running Ollama: " ++ msg]
        callMade := prompt2answerCall prompt }

/-- `chatbot.py` lines 19-45, `prompt2answer(prompt)`: print the running
message, issue the single subprocess call built by `prompt2answerCall`, and
map its outcome through `answerOfOutcome`. The function takes exactly one
data parameter, `prompt`; there is no mode argument. -/
def prompt2answer (launch : Launcher) (prompt : String) : AnswerOutcome :=
  answerOfOutcome prompt (launch (prompt2answerCall prompt))

/-- The parameter list of `def speech2text(audio_path)` (`chatbot.py` line 7). -/
def speech2textParams : List String := ["audio_path"]

/-- The parameter list of `def prompt2answer(prompt)` (`chatbot.py` line 19). -/
def prompt2answerParams : List String := ["prompt"]

/-- Where a stage executes: the in-process local Whisper model, a local
subprocess, or a hosted remote endpoint (the latter is named by the spec;
no code path in `chatbot.py` reaches it). -/
inductive Backend where
  | localWhisper
  | localSubprocess
  | remoteEndpoint
deriving DecidableEq

/-- The backend `speech2text` executes on for a given input: unconditionally
the local Whisper model loaded at `chatbot.py` line 12
(`whisper.load_model("base")`); the function body contains no branch on any
mode and no remote call. -/
def speech2textBackend (audio_path : String) : Backend :=
  Backend.localWhisper

/-- The backend `prompt2answer` executes on for a given input: unconditionally
the local `ollama` subprocess of `chatbot.py` line 28; the function body
contains no branch on any mode and no remote call. -/
def prompt2answerBackend (prompt : String) : Backend :=
  Backend.localSubprocess

/-- What one run of the CLI `main` (`chatbot.py` lines 47-80) produces: the
exit code (`sys.exit(1)` or falling off the end, modelled as 0), the printed
lines in order, and whether the two stages were invoked. -/
structure MainResult where
  exitCode : Nat
  output : List String
  transcriberCalled : Bool
  responderCalled : Bool
deriving DecidableEq

/-- `chatbot.py` lines 47-80, `main()`: usage check on `len(sys.argv) < 2`,
existence check on the audio path with `sys.exit(1)`, then `speech2text`,
then `prompt2answer` on the stripped transcript, with `sys.exit(1)` on each
`None` result. The filesystem (`os.path.exists`) and the two stages are
passed as explicit collaborators. -/
def main (argv : List String) (pathExists : String → Bool)
    (transcriber : String → Option String)
    (responder : String → Option String) : MainResult :=
  match argv with
  | _prog :: audio_path :: _ =>
    let started := ["Chatbot started"]
    match pathExists audio_path with
    | false =>
      { exitCode := 1
        output := started ++ ["Error: Audio file \x27" ++ audio_path ++ "\x27 not found"]
        transcriberCalled := false
        responderCalled := false }
    | true =>
      match transcriber audio_path with
      | none =>
        { exitCode := 1
          output := started ++ ["Failed to transcribe audio"]
          transcriberCalled := true
          responderCalled := false }
      | some transcript =>
        let clean_transcript := pyStrip transcript
        let logs := started ++
          ["Transcript: " ++ transcript,
           "Clean transcript: \"" ++ clean_transcript ++ "\""]
        match responder clean_transcript with
        | none =>
          { exitCode := 1
            output := logs ++ ["Failed to get response from Ollama"]
            transcriberCalled := true
            responderCalled := true }
        | some resp =>
          { exitCode := 0
            output := logs ++ ["Chatbot: " ++ resp]
            transcriberCalled := true
            responderCalled := true }
  | _ =>
    { exitCode := 1
      output := ["Usage: python chatbot.py <audio_file_path>"]
      transcriberCalled := false
      responderCalled := false }

/-- Observation on strings: the first character is Python whitespace. -/
def beginsWithSpace (s : String) : Bool :=
  match s.data.head? with
  | some c => isPySpace c
  | none => false

/-- Observation on strings: the last character is Python whitespace. -/
def endsWithSpace (s : String) : Bool :=
  match s.data.getLast? with
  | some c => isPySpace c
  | none => false

end Chatbot

namespace GradioApp

/-- What one click of the "generate answer" button produces: the text shown
in the output box and whether the Responder (`prompt2answer`) was invoked. -/
structure UiResponse where
  text : String
  responderCalled : Bool
deriving DecidableEq

/-- `gradio_app.py` lines 7-18, `transcribe_audio(audio_file)`: the literal
placeholder when no audio is uploaded (`audio_file is None`), the error
string when `speech2text` returns `None`, and the transcribed text otherwise.
The Transcriber (`speech2text`) is passed as an explicit collaborator. -/
def transcribe_audio (transcriber : String → Option String)
    (audio_file : Option String) : String :=
  match audio_file with
  | none => "No audio file uploaded"
  | some f =>
    match transcriber f with
    | none => "Error: Could not transcribe the audio file."
    | some t => t

/-- `gradio_app.py` lines 20-31, `generate_ai_response(transcribed_text)`:
when the input is falsy (empty string), equals the placeholder
"No audio file uploaded", or starts with "Error:", return the instruction
message without invoking the Responder; otherwise invoke `prompt2answer`
and map its `None` to an error string. -/
def generate_ai_response (responder : String → Option String)
    (transcribed_text : String) : UiResponse :=
  if transcribed_text = "" ∨ transcribed_text = "No audio file uploaded"
      ∨ Chatbot.strStartsWith transcribed_text "Error:" = true then
    { text := "Please transcribe an audio file first.", responderCalled := false }
  else
    match responder transcribed_text with
    | none => { text := "Error: Could not generate AI response.", responderCalled := true }
    | some a => { text := a, responderCalled := true }

end GradioApp

/-! ## Properties of the embedded `str.strip()` -/

namespace Chatbot

theorem dropWhile_head_not (p : Char → Bool) (l : List Char) :
    ∀ c, (l.dropWhile p).head? = some c → p c = false := by
  induction l with
  | nil => intro c h; simp [List.dropWhile] at h
  | cons a t ih =>
    intro c h
    rw [List.dropWhile_cons] at h
    by_cases hp : p a
    · rw [if_pos hp] at h
      exact ih c h
    · rw [if_neg hp] at h
      simp at h
      rw [← h]
      simpa using hp

theorem dropWhile_of_head_not (p : Char → Bool) (l : List Char)
    (h : ∀ c, l.head? = some c → p c = false) : l.dropWhile p = l := by
  cases l with
  | nil => rfl
  | cons a t =>
    rw [List.dropWhile_cons, if_neg]
    simp [h a rfl]

theorem dropWhile_drops_left (p : Char → Bool) (l : List Char) :
    ∃ s, s ++ l.dropWhile p = l := by
  induction l with
  | nil => exact ⟨[], rfl⟩
  | cons a t ih =>
    by_cases hp : p a
    · obtain ⟨s, hs⟩ := ih
      exact ⟨a :: s, by rw [List.dropWhile_cons, if_pos hp]; simpa using hs⟩
    · exact ⟨[], by rw [List.dropWhile_cons, if_neg hp]; rfl⟩

theorem pyStripRight_drops_right (l : List Char) :
    ∃ t, pyStripRight l ++ t = l := by
  obtain ⟨s, hs⟩ := dropWhile_drops_left isPySpace l.reverse
  refine ⟨s.reverse, ?_⟩
  have h2 := congrArg List.reverse hs
  rw [List.reverse_append, List.reverse_reverse] at h2
  exact h2

theorem head_of_pyStripRight (l : List Char) (c : Char)
    (h : (pyStripRight l).head? = some c) : l.head? = some c := by
  obtain ⟨t, ht⟩ := pyStripRight_drops_right l
  cases hpr : pyStripRight l with
  | nil => rw [hpr] at h; simp at h
  | cons b bs =>
    rw [hpr] at h ht
    simp at h
    rw [← ht, ← h]
    rfl

theorem getLast_of_pyStripRight_not (l : List Char) (c : Char)
    (h : (pyStripRight l).getLast? = some c) : isPySpace c = false := by
  unfold pyStripRight at h
  rw [List.getLast?_reverse] at h
  exact dropWhile_head_not isPySpace l.reverse c h

theorem pyStripRight_idem (l : List Char) :
    pyStripRight (pyStripRight l) = pyStripRight l := by
  unfold pyStripRight
  rw [List.reverse_reverse,
      dropWhile_of_head_not isPySpace _ (dropWhile_head_not isPySpace l.reverse)]

theorem head_of_pyStripList_not (l : List Char) (c : Char)
    (h : (pyStripList l).head? = some c) : isPySpace c = false := by
  unfold pyStripList at h
  have h1 : (pyStripLeft l).head? = some c := head_of_pyStripRight _ c h
  unfold pyStripLeft at h1
  exact dropWhile_head_not isPySpace l c h1

theorem getLast_of_pyStripList_not (l : List Char) (c : Char)
    (h : (pyStripList l).getLast? = some c) : isPySpace c = false :=
  getLast_of_pyStripRight_not (pyStripLeft l) c h

theorem pyStripList_idem (l : List Char) :
    pyStripList (pyStripList l) = pyStripList l := by
  have h1 : pyStripLeft (pyStripList l) = pyStripList l := by
    unfold pyStripLeft
    exact dropWhile_of_head_not isPySpace _ (fun c hc => head_of_pyStripList_not l c hc)
  show pyStripRight (pyStripLeft (pyStripList l)) = pyStripList l
  rw [h1]
  show pyStripRight (pyStripRight (pyStripLeft l)) = pyStripList l
  rw [pyStripRight_idem]
  rfl

theorem pyStrip_idem (s : String) : pyStrip (pyStrip s) = pyStrip s := by
  show String.mk (pyStripList (pyStripList s.data)) = String.mk (pyStripList s.data)
  rw [pyStripList_idem]

theorem beginsWithSpace_pyStrip (s : String) :
    beginsWithSpace (pyStrip s) = false := by
  unfold beginsWithSpace
  cases hh : (pyStrip s).data.head? with
  | none => rfl
  | some c => exact head_of_pyStripList_not s.data c hh

theorem endsWithSpace_pyStrip (s : String) :
    endsWithSpace (pyStrip s) = false := by
  unfold endsWithSpace
  cases hh : (pyStrip s).data.getLast? with
  | none => rfl
  | some c => exact getLast_of_pyStripList_not s.data c hh

end Chatbot

/-! ## The claims -/

/-- C1: for every prompt string — in particular prompts containing shell
metacharacters — local-mode `prompt2answer` hands the prompt to the process
launcher as the single literal fourth element of the argument vector
`["ollama", "run", "mistral:latest", prompt]` and never invokes a shell,
so no injected command is executed and the metacharacters reach the model
as literal text. -/
theorem C1_prompt_single_literal_argument (launch : Chatbot.Launcher) (p : String) :
    (Chatbot.prompt2answer launch p).callMade = Chatbot.prompt2answerCall p ∧
    (Chatbot.prompt2answerCall p).argv = ["ollama", "run", "mistral:latest", p] ∧
    (Chatbot.prompt2answerCall p).useShell = false := by
  refine ⟨?_, rfl, rfl⟩
  unfold Chatbot.prompt2answer
  cases launch (Chatbot.prompt2answerCall p) with
  | completed rc out err =>
    simp only [Chatbot.answerOfOutcome]
    split <;> rfl
  | timedOut => rfl
  | raised m => rfl

/-- C2 counterexample: `speech2text` does not reject empty engine output;
when the Whisper engine yields the empty text field for an audio file,
`speech2text` returns the empty string as a success value (`some ""`),
contradicting the claim that it never returns an empty success value. -/
theorem C2_counterexample :
    Chatbot.speech2text (fun _ => Except.ok "") "CapitalOfSudan.m4a" = some "" := rfl

/-- C2 amended: `speech2text` returns the engine's `result["text"]` field
verbatim as a success value — including when it is empty — and `None`
exactly when the engine raises; it performs no non-emptiness check. -/
theorem C2_speech2text_verbatim (engine : Chatbot.WhisperEngine) (audio_path : String) :
    Chatbot.speech2text engine audio_path = (engine audio_path).toOption := by
  unfold Chatbot.speech2text
  cases engine audio_path with
  | ok t => rfl
  | error e => rfl

/-- C3 counterexample: when the `ollama` subprocess exits with status 0 and
empty stdout, `prompt2answer` returns `some ""` — an empty success value —
contradicting the claim that empty output is surfaced as a failure. -/
theorem C3_counterexample :
    (Chatbot.prompt2answer (fun _ => Chatbot.ProcOutcome.completed 0 "" "") "hi").result
      = some "" := rfl

/-- C3 amended: `prompt2answer` returns `None` on a non-zero exit status,
on timeout, and on an exception, and on exit status 0 it returns the
stripped stdout unconditionally — even when the stripped stdout is the
empty string, which is then silently returned as a success value. -/
theorem C3_failure_modes_and_stripped_success (launch : Chatbot.Launcher) (p : String) :
    (∀ out err,
      launch (Chatbot.prompt2answerCall p) = Chatbot.ProcOutcome.completed 0 out err →
      (Chatbot.prompt2answer launch p).result = some (Chatbot.pyStrip out)) ∧
    (∀ (rc : Int) out err, rc ≠ 0 →
      launch (Chatbot.prompt2answerCall p) = Chatbot.ProcOutcome.completed rc out err →
      (Chatbot.prompt2answer launch p).result = none) ∧
    (launch (Chatbot.prompt2answerCall p) = Chatbot.ProcOutcome.timedOut →
      (Chatbot.prompt2answer launch p).result = none) ∧
    (∀ msg,
      launch (Chatbot.prompt2answerCall p) = Chatbot.ProcOutcome.raised msg →
      (Chatbot.prompt2answer launch p).result = none) := by
  refine ⟨?_, ?_, ?_, ?_⟩
  · intro out err h
    unfold Chatbot.prompt2answer
    rw [h]
    simp [Chatbot.answerOfOutcome]
  · intro rc out err hrc h
    unfold Chatbot.prompt2answer
    rw [h]
    simp only [Chatbot.answerOfOutcome]
    rw [if_pos hrc]
  · intro h
    unfold Chatbot.prompt2answer
    rw [h]
    rfl
  · intro msg h
    unfold Chatbot.prompt2answer
    rw [h]
    rfl

/-- C3 witness: the amended theorem at each of the four concrete outcomes —
zero exit with empty stdout (empty success value), exit status 1, timeout
expiry, and a raised exception. -/
theorem C3_witness :
    (Chatbot.prompt2answer (fun _ => Chatbot.ProcOutcome.completed 0 "" "boom") "q").result
      = some (Chatbot.pyStrip "") ∧
    (Chatbot.prompt2answer (fun _ => Chatbot.ProcOutcome.completed 1 "out" "err") "q").result
      = none ∧
    (Chatbot.prompt2answer (fun _ => Chatbot.ProcOutcome.timedOut) "q").result = none ∧
    (Chatbot.prompt2answer (fun _ => Chatbot.ProcOutcome.raised "oserror") "q").result
      = none :=
  ⟨(C3_failure_modes_and_stripped_success
      (fun _ => Chatbot.ProcOutcome.completed 0 "" "boom") "q").1 "" "boom" rfl,
   (C3_failure_modes_and_stripped_success
      (fun _ => Chatbot.ProcOutcome.completed 1 "out" "err") "q").2.1 1 "out" "err"
      (by decide) rfl,
   (C3_failure_modes_and_stripped_success
      (fun _ => Chatbot.ProcOutcome.timedOut) "q").2.2.1 rfl,
   (C3_failure_modes_and_stripped_success
      (fun _ => Chatbot.ProcOutcome.raised "oserror") "q").2.2.2 "oserror" rfl⟩

/-- C4 counterexample: neither function has a `mode` parameter — their
parameter lists are `["audio_path"]` and `["prompt"]` — and at concrete
calls both execute on a fixed local backend, never the remote endpoint,
contradicting the claim of a per-call two-valued remote/local mode
argument. -/
theorem C4_counterexample :
    "mode" ∉ Chatbot.speech2textParams ∧
    "mode" ∉ Chatbot.prompt2answerParams ∧
    Chatbot.speech2textBackend "CapitalOfSudan.m4a" ≠ Chatbot.Backend.remoteEndpoint ∧
    Chatbot.prompt2answerBackend "What is the capital of Sudan?"
      ≠ Chatbot.Backend.remoteEndpoint := by
  refine ⟨?_, ?_, ?_, ?_⟩ <;> decide

/-- C4 amended: `speech2text` takes the single parameter `audio_path` and
`prompt2answer` the single parameter `prompt`; there is no `ExecutionMode`
argument, and for every input the execution backend is fixed: the local
Whisper model for transcription and the local `ollama` subprocess for
answering. -/
theorem C4_no_mode_fixed_local (audio_path prompt : String) :
    Chatbot.speech2textParams = ["audio_path"] ∧
    Chatbot.prompt2answerParams = ["prompt"] ∧
    Chatbot.speech2textBackend audio_path = Chatbot.Backend.localWhisper ∧
    Chatbot.prompt2answerBackend prompt = Chatbot.Backend.localSubprocess :=
  ⟨rfl, rfl, rfl, rfl⟩

/-- C5: `prompt2answer` passes `timeout=300` (seconds) on its subprocess
call, and when the call ends in timeout expiry the function returns `None`
(never a success value) after printing the distinct timeout message. -/
theorem C5_timeout_bounded (launch : Chatbot.Launcher) (p : String)
    (h : launch (Chatbot.prompt2answerCall p) = Chatbot.ProcOutcome.timedOut) :
    (Chatbot.prompt2answerCall p).timeoutSeconds = some 300 ∧
    (Chatbot.prompt2answer launch p).result = none ∧
    "Ollama command timed out" ∈ (Chatbot.prompt2answer launch p).log := by
  refine ⟨rfl, ?_, ?_⟩
  · unfold Chatbot.prompt2answer
    rw [h]
    rfl
  · unfold Chatbot.prompt2answer
    rw [h]
    simp [Chatbot.answerOfOutcome]

/-- C5 witness: the theorem at a launcher whose outcome is timeout expiry. -/
theorem C5_witness :
    (Chatbot.prompt2answerCall "hello").timeoutSeconds = some 300 ∧
    (Chatbot.prompt2answer (fun _ => Chatbot.ProcOutcome.timedOut) "hello").result = none ∧
    "Ollama command timed out" ∈
      (Chatbot.prompt2answer (fun _ => Chatbot.ProcOutcome.timedOut) "hello").log :=
  C5_timeout_bounded (fun _ => Chatbot.ProcOutcome.timedOut) "hello" rfl

/-- C6: for every audio file path that does not exist on the filesystem, the
CLI `main` exits with code 1, prints a message containing that path, and
never calls the Transcriber. -/
theorem C6_missing_audio_file (prog audio_path : String) (rest : List String)
    (pathExists : String → Bool)
    (transcriber responder : String → Option String)
    (h : pathExists audio_path = false) :
    (Chatbot.main (prog :: audio_path :: rest) pathExists transcriber responder).exitCode
      = 1 ∧
    ("Error: Audio file \x27" ++ audio_path ++ "\x27 not found") ∈
      (Chatbot.main (prog :: audio_path :: rest) pathExists transcriber responder).output ∧
    (Chatbot.main (prog :: audio_path :: rest) pathExists transcriber
      responder).transcriberCalled = false := by
  simp only [Chatbot.main]
  rw [h]
  exact ⟨rfl, by simp, rfl⟩

/-- C6 witness: the theorem at a concrete missing path. -/
theorem C6_witness :
    (Chatbot.main ["chatbot.py", "missing.wav"] (fun _ => false)
      (fun _ => none) (fun _ => none)).exitCode = 1 ∧
    ("Error: Audio file \x27" ++ "missing.wav" ++ "\x27 not found") ∈
      (Chatbot.main ["chatbot.py", "missing.wav"] (fun _ => false)
        (fun _ => none) (fun _ => none)).output ∧
    (Chatbot.main ["chatbot.py", "missing.wav"] (fun _ => false)
      (fun _ => none) (fun _ => none)).transcriberCalled = false :=
  C6_missing_audio_file "chatbot.py" "missing.wav" [] (fun _ => false)
    (fun _ => none) (fun _ => none) rfl

/-- C7: with no audio uploaded (`None`), the transcribe button yields
exactly the literal placeholder "No audio file uploaded", and the generate
button on that placeholder yields exactly
"Please transcribe an audio file first." without invoking the Responder —
for every Transcriber and Responder. -/
theorem C7_ui_placeholder_flow (transcriber responder : String → Option String) :
    GradioApp.transcribe_audio transcriber none = "No audio file uploaded" ∧
    GradioApp.generate_ai_response responder "No audio file uploaded" =
      { text := "Please transcribe an audio file first.", responderCalled := false } := by
  refine ⟨rfl, ?_⟩
  unfold GradioApp.generate_ai_response
  rw [if_pos (Or.inr (Or.inl rfl))]

/-- C8: every input that begins with the error marker "Error:" or equals
the placeholder "No audio file uploaded" is treated as non-actionable by
`generate_ai_response`: it returns the instruction message and does not
invoke the Responder. -/
theorem C8_error_marker_non_actionable (responder : String → Option String) (s : String)
    (h : Chatbot.strStartsWith s "Error:" = true ∨ s = "No audio file uploaded") :
    GradioApp.generate_ai_response responder s =
      { text := "Please transcribe an audio file first.", responderCalled := false } := by
  unfold GradioApp.generate_ai_response
  rcases h with h | h
  · rw [if_pos (Or.inr (Or.inr h))]
  · rw [if_pos (Or.inr (Or.inl h))]

/-- C8 witness: the theorem at a concrete error-marked string. -/
theorem C8_witness :
    GradioApp.generate_ai_response (fun _ => some "x") "Error: boom" =
      { text := "Please transcribe an audio file first.", responderCalled := false } :=
  C8_error_marker_non_actionable (fun _ => some "x") "Error: boom" (Or.inl (by decide))

/-- C9: `speech2text` and `prompt2answer` are total at their public
interface: an exception raised by the Whisper engine, an exception raised
by the subprocess machinery, and a `TimeoutExpired` are all caught inside
the function, which returns `None`; no exception propagates to the caller
(every outcome of the external collaborators is mapped to a value). -/
theorem C9_total_no_exception_escapes
    (engine : Chatbot.WhisperEngine) (audio_path emsg : String)
    (launchR launchT : Chatbot.Launcher) (p q lmsg : String)
    (he : engine audio_path = Except.error emsg)
    (hr : launchR (Chatbot.prompt2answerCall p) = Chatbot.ProcOutcome.raised lmsg)
    (ht : launchT (Chatbot.prompt2answerCall q) = Chatbot.ProcOutcome.timedOut) :
    Chatbot.speech2text engine audio_path = none ∧
    (Chatbot.prompt2answer launchR p).result = none ∧
    (Chatbot.prompt2answer launchT q).result = none := by
  refine ⟨?_, ?_, ?_⟩
  · unfold Chatbot.speech2text
    rw [he]
  · unfold Chatbot.prompt2answer
    rw [hr]
    rfl
  · unfold Chatbot.prompt2answer
    rw [ht]
    rfl

/-- C9 witness: the theorem at concrete raising collaborators. -/
theorem C9_witness :
    Chatbot.speech2text (fun _ => Except.error "boom") "a.wav" = none ∧
    (Chatbot.prompt2answer (fun _ => Chatbot.ProcOutcome.raised "oserror") "p").result
      = none ∧
    (Chatbot.prompt2answer (fun _ => Chatbot.ProcOutcome.timedOut) "q").result = none :=
  C9_total_no_exception_escapes (fun _ => Except.error "boom") "a.wav" "boom"
    (fun _ => Chatbot.ProcOutcome.raised "oserror") (fun _ => Chatbot.ProcOutcome.timedOut)
    "p" "q" "oserror" rfl rfl rfl

/-- C10: every success value of `prompt2answer` is the child process's
stdout with leading and trailing whitespace removed: it never begins or
ends with whitespace, and stripping it again is the identity. -/
theorem C10_success_value_is_stripped (launch : Chatbot.Launcher) (p s : String)
    (h : (Chatbot.prompt2answer launch p).result = some s) :
    Chatbot.beginsWithSpace s = false ∧
    Chatbot.endsWithSpace s = false ∧
    Chatbot.pyStrip s = s := by
  have key : ∃ out, s = Chatbot.pyStrip out := by
    unfold Chatbot.prompt2answer at h
    cases o : launch (Chatbot.prompt2answerCall p) with
    | completed rc out err =>
      rw [o] at h
      simp only [Chatbot.answerOfOutcome] at h
      by_cases hrc : rc ≠ 0
      · rw [if_pos hrc] at h
        simp at h
      · rw [if_neg hrc] at h
        simp at h
        exact ⟨out, h.symm⟩
    | timedOut =>
      rw [o] at h
      simp [Chatbot.answerOfOutcome] at h
    | raised m =>
      rw [o] at h
      simp [Chatbot.answerOfOutcome] at h
  obtain ⟨out, rfl⟩ := key
  exact ⟨Chatbot.beginsWithSpace_pyStrip out, Chatbot.endsWithSpace_pyStrip out,
    Chatbot.pyStrip_idem out⟩

/-- C10 witness: the theorem at a launcher producing stdout " hi ". -/
theorem C10_witness :
    Chatbot.beginsWithSpace "hi" = false ∧
    Chatbot.endsWithSpace "hi" = false ∧
    Chatbot.pyStrip "hi" = "hi" :=
  C10_success_value_is_stripped
    (fun _ => Chatbot.ProcOutcome.completed 0 " hi " "") "w" "hi" (by decide)
